import Mathlib

/-!
Verification of the CampusPulse video-forensics pipeline
(`backend/app/forensics.py`, `backend/app/crud.py`,
`backend/app/api/submissions.py`) against its natural-language
specification.

Confidences and scores are Python floats in the source; they are embedded
as exact rationals (`ℚ`).  Verdicts are the literal strings the source
uses.  Detector results are Python dicts with a fixed shape; they are
embedded as a structure.
-/

namespace CampusPulse

/-- One detector result, as produced by the `_..._analysis` methods of
`VideoForensicsAnalyzer`: a dict with `test_name`, `verdict` (a string:
`"authentic"`, `"suspicious"` or `"error"`), `confidence`, and an optional
`details.flags` list (empty when `details` is absent or has no `flags`
key, matching `result.get("details", {}).get("flags", [])`). -/
structure DetectorResult where
  test_name : String
  verdict : String
  confidence : ℚ
  flags : List String
deriving DecidableEq, Repr

/-- The running accumulator of `_combine_test_results`'s loop over
`test_results`. -/
structure CombineState where
  authentic_count : ℕ
  suspicious_count : ℕ
  error_count : ℕ
  total_confidence : ℚ
  valid_tests : ℕ
  flags : List String
deriving DecidableEq, Repr

/-- One iteration of the loop in `_combine_test_results`: `"authentic"`
and `"suspicious"` verdicts are counted as valid and contribute their
confidence; a suspicious result also appends its `details.flags`; any
other verdict is counted as an error. -/
def combineStep (s : CombineState) (r : DetectorResult) : CombineState :=
  if r.verdict = "authentic" then
    { s with authentic_count := s.authentic_count + 1,
             total_confidence := s.total_confidence + r.confidence,
             valid_tests := s.valid_tests + 1 }
  else if r.verdict = "suspicious" then
    { s with suspicious_count := s.suspicious_count + 1,
             total_confidence := s.total_confidence + r.confidence,
             valid_tests := s.valid_tests + 1,
             flags := s.flags ++ r.flags }
  else
    { s with error_count := s.error_count + 1 }

/-- The combined dict returned by `_combine_test_results` (the
`individual_results` echo of the input is omitted: it is the input
itself). `list(set(flags))` is embedded as `List.dedup`. -/
structure CombinedResult where
  overall_verdict : String
  confidence : ℚ
  flags : List String
  authentic_tests : ℕ
  suspicious_tests : ℕ
  error_tests : ℕ
  total_tests : ℕ
deriving DecidableEq, Repr

/-- `VideoForensicsAnalyzer._combine_test_results`
(`backend/app/forensics.py`, lines 408-459).  The error branch condition
`error_count > len(test_results) / 2` uses Python true division, i.e.
`2 * error_count > len(test_results)`. -/
def combineTestResults (test_results : List DetectorResult) : CombinedResult :=
  let st := test_results.foldl combineStep ⟨0, 0, 0, 0, 0, []⟩
  let n := test_results.length
  let meanConf : ℚ := if st.valid_tests > 0 then st.total_confidence / st.valid_tests else 0
  let verdictConf : String × ℚ :=
    if 2 * st.error_count > n then ("error", 0)
    else if st.suspicious_count > st.authentic_count then ("suspicious", meanConf)
    else if st.suspicious_count > 0 then ("flagged", meanConf)
    else ("authentic", meanConf)
  { overall_verdict := verdictConf.1
    confidence := verdictConf.2
    flags := st.flags.dedup
    authentic_tests := st.authentic_count
    suspicious_tests := st.suspicious_count
    error_tests := st.error_count
    total_tests := n }

/-- Count of results the combiner treats as valid `"authentic"` votes. -/
def authenticCount (l : List DetectorResult) : ℕ :=
  l.countP (fun r => r.verdict = "authentic")

/-- Count of results the combiner treats as valid `"suspicious"` votes. -/
def suspiciousCount (l : List DetectorResult) : ℕ :=
  l.countP (fun r => r.verdict = "suspicious")

/-- Count of results falling into the combiner's error branch (any
verdict other than `"authentic"` or `"suspicious"`). -/
def errorCount (l : List DetectorResult) : ℕ :=
  l.countP (fun r => r.verdict ≠ "authentic" ∧ r.verdict ≠ "suspicious")

/-- The non-errored (valid) results of a list. -/
def validResults (l : List DetectorResult) : List DetectorResult :=
  l.filter (fun r => r.verdict = "authentic" ∨ r.verdict = "suspicious")

/-- Arithmetic mean of the confidences of a result list (0 for the empty
list, matching the combiner's `valid_tests > 0` guard). -/
def meanConfidence (l : List DetectorResult) : ℚ :=
  if l.length > 0 then (l.map (fun r => r.confidence)).sum / l.length else 0

/-- Closed form of the combiner's loop: starting from state `s`, the fold
tallies each verdict class, sums valid confidences, and concatenates the
flags of suspicious results. -/
theorem combineFold_spec (l : List DetectorResult) (s : CombineState) :
    l.foldl combineStep s =
      { authentic_count := s.authentic_count + authenticCount l
        suspicious_count := s.suspicious_count + suspiciousCount l
        error_count := s.error_count + errorCount l
        total_confidence :=
          s.total_confidence + ((validResults l).map (fun r => r.confidence)).sum
        valid_tests := s.valid_tests + (validResults l).length
        flags := s.flags ++ (l.filter (fun r => r.verdict = "suspicious")).flatMap
          (fun r => r.flags) } := by
  induction l generalizing s with
  | nil =>
    simp [authenticCount, suspiciousCount, errorCount, validResults, meanConfidence]
  | cons r t ih =>
    by_cases ha : r.verdict = "authentic"
    · simp only [List.foldl_cons, ih, combineStep, ha, if_pos rfl]
      simp [authenticCount, suspiciousCount, errorCount, validResults, ha,
        List.countP_cons, List.filter_cons, add_assoc, add_comm, add_left_comm]
    · by_cases hs : r.verdict = "suspicious"
      · simp only [List.foldl_cons, combineStep, ha, hs, if_neg ha, if_pos rfl, ih]
        simp [authenticCount, suspiciousCount, errorCount, validResults, ha, hs,
          List.countP_cons, List.filter_cons, add_assoc, add_comm, add_left_comm,
          List.append_assoc]
      · simp only [List.foldl_cons, combineStep, ha, hs, if_neg ha, if_neg hs, ih]
        simp [authenticCount, suspiciousCount, errorCount, validResults, ha, hs,
          List.countP_cons, List.filter_cons, add_assoc, add_comm, add_left_comm]

/-- Closed form of `combineTestResults`: verdict and confidence are
determined by the three verdict-class counts, and the flags are the
deduplicated flags of the suspicious results. -/
theorem combineTestResults_eq (l : List DetectorResult) :
    combineTestResults l =
      { overall_verdict :=
          if 2 * errorCount l > l.length then "error"
          else if suspiciousCount l > authenticCount l then "suspicious"
          else if suspiciousCount l > 0 then "flagged"
          else "authentic"
        confidence :=
          if 2 * errorCount l > l.length then 0 else meanConfidence (validResults l)
        flags := ((l.filter (fun r => r.verdict = "suspicious")).flatMap
          (fun r => r.flags)).dedup
        authentic_tests := authenticCount l
        suspicious_tests := suspiciousCount l
        error_tests := errorCount l
        total_tests := l.length } := by
  unfold combineTestResults
  rw [combineFold_spec]
  simp only [zero_add, List.nil_append, meanConfidence]
  by_cases he : 2 * errorCount l > l.length
  · simp [he]
  · by_cases hs : suspiciousCount l > authenticCount l
    · simp [he, hs]
    · by_cases hp : suspiciousCount l > 0
      · simp [he, hs, hp]
      · simp [he, hs, hp]

/-- Sums of lists of rationals all lying in `[0,1]` lie in
`[0, length]`. -/
theorem sum_mem_unit_bounds (xs : List ℚ) (h : ∀ x ∈ xs, 0 ≤ x ∧ x ≤ 1) :
    0 ≤ xs.sum ∧ xs.sum ≤ (xs.length : ℚ) := by
  induction xs with
  | nil => simp
  | cons a t ih =>
    have ha := h a (List.mem_cons_self a t)
    have ht := ih (fun x hx => h x (List.mem_cons_of_mem a hx))
    constructor
    · simp only [List.sum_cons]
      linarith [ha.1, ht.1]
    · simp only [List.sum_cons, List.length_cons]
      push_cast
      linarith [ha.2, ht.2]

/-- A result list all of whose verdicts are `"error"` has no valid
results and no suspicious flags; its error count is its length. -/
theorem allError_counts (l : List DetectorResult)
    (h : ∀ r ∈ l, r.verdict = "error") :
    authenticCount l = 0 ∧ suspiciousCount l = 0 ∧ errorCount l = l.length ∧
      validResults l = [] ∧ l.filter (fun r => r.verdict = "suspicious") = [] := by
  refine ⟨?_, ?_, ?_, ?_, ?_⟩
  · simp only [authenticCount, List.countP_eq_zero]
    intro r hr
    simp [h r hr]
  · simp only [suspiciousCount, List.countP_eq_zero]
    intro r hr
    simp [h r hr]
  · simp only [errorCount]
    rw [List.countP_eq_length]
    intro r hr
    simp [h r hr]
  · simp only [validResults, List.filter_eq_nil_iff]
    intro r hr
    simp [h r hr]
  · rw [List.filter_eq_nil_iff]
    intro r hr
    simp [h r hr]

/-- A single errored detector result, used as a concrete input. -/
def errRes : DetectorResult :=
  { test_name := "video_hash_analysis", verdict := "error", confidence := 0, flags := [] }

/-- C1 (counterexample): on the one-element list whose only result has
verdict `"error"`, the combiner does return overall verdict `"error"`
with confidence `0.0`, but its flags list does NOT contain
`"insufficient_data"` — no such flag is ever emitted by
`_combine_test_results`. -/
theorem combine_allError_no_insufficient_data_flag :
    (∀ r ∈ [errRes], r.verdict = "error") ∧
    (combineTestResults [errRes]).overall_verdict = "error" ∧
    (combineTestResults [errRes]).confidence = 0 ∧
    "insufficient_data" ∉ (combineTestResults [errRes]).flags := by
  refine ⟨?_, ?_, ?_, ?_⟩ <;> decide

/-- C1 (amended): for every NONEMPTY detector-result list in which every
result has verdict `"error"`, `_combine_test_results` returns overall
verdict `"error"` (not `"authentic"`), confidence exactly `0.0`, and an
EMPTY flags list (in particular, no `"insufficient_data"` flag). -/
theorem combine_allError_verdict (l : List DetectorResult)
    (hne : l ≠ []) (h : ∀ r ∈ l, r.verdict = "error") :
    (combineTestResults l).overall_verdict = "error" ∧
    (combineTestResults l).confidence = 0 ∧
    (combineTestResults l).flags = [] := by
  obtain ⟨ha, hs, he, hv, hf⟩ := allError_counts l h
  have hlen : 0 < l.length := List.length_pos.mpr hne
  have hgt : 2 * errorCount l > l.length := by
    rw [he]; omega
  rw [combineTestResults_eq]
  simp [hgt, hf]

/-- C1 (witness for the amended claim): the one-element all-error list is
nonempty and satisfies the conclusion. -/
theorem combine_allError_verdict_witness :
    (combineTestResults [errRes]).overall_verdict = "error" ∧
    (combineTestResults [errRes]).confidence = 0 ∧
    (combineTestResults [errRes]).flags = [] :=
  combine_allError_verdict [errRes] (by decide) (by decide)

/-- C10: on the EMPTY detector-result list, `_combine_test_results`
returns overall verdict `"authentic"` with confidence `0.0`, an empty
flags list, and all counts zero: absence of detector output is
classified as authentic, not as an error. -/
theorem combine_empty_authentic :
    combineTestResults [] =
      { overall_verdict := "authentic", confidence := 0, flags := []
        authentic_tests := 0, suspicious_tests := 0, error_tests := 0
        total_tests := 0 } := by
  rfl

/-- The number of valid results is the number of authentic votes plus the
number of suspicious votes. -/
theorem validResults_length (l : List DetectorResult) :
    (validResults l).length = authenticCount l + suspiciousCount l := by
  induction l with
  | nil => simp [validResults, authenticCount, suspiciousCount]
  | cons r t ih =>
    by_cases ha : r.verdict = "authentic"
    · simp [validResults, authenticCount, suspiciousCount, List.filter_cons,
        List.countP_cons, ha] at *
      omega
    · by_cases hs : r.verdict = "suspicious"
      · simp [validResults, authenticCount, suspiciousCount, List.filter_cons,
          List.countP_cons, ha, hs] at *
        omega
      · simp [validResults, authenticCount, suspiciousCount, List.filter_cons,
          List.countP_cons, ha, hs] at *
        exact ih

/-- C2: whenever the errored results are not more than half of the list,
the majority-vote combiner returns `"suspicious"` when suspicious votes
strictly outnumber authentic ones (i.e. are a strict majority of the
valid results), `"flagged"` when there is at least one suspicious vote
but not a majority of the valid results, and `"authentic"` when there is
no suspicious vote; in each case the confidence is the arithmetic mean of
the confidences of the non-errored results. -/
theorem combine_majority_vote (l : List DetectorResult)
    (hErr : 2 * errorCount l ≤ l.length) :
    ((suspiciousCount l > authenticCount l →
        (combineTestResults l).overall_verdict = "suspicious") ∧
      (0 < suspiciousCount l → 2 * suspiciousCount l ≤ (validResults l).length →
        (combineTestResults l).overall_verdict = "flagged") ∧
      (suspiciousCount l = 0 →
        (combineTestResults l).overall_verdict = "authentic")) ∧
    (combineTestResults l).confidence = meanConfidence (validResults l) := by
  have hne : ¬(2 * errorCount l > l.length) := by omega
  rw [combineTestResults_eq]
  refine ⟨⟨?_, ?_, ?_⟩, ?_⟩
  · intro hmaj
    simp [hne, hmaj]
  · intro hpos hnm
    have hle : ¬(suspiciousCount l > authenticCount l) := by
      rw [validResults_length] at hnm
      omega
    simp [hne, hle, hpos]
  · intro hz
    have hle : ¬(suspiciousCount l > authenticCount l) := by omega
    simp [hne, hle, hz]
  · simp [hne]

/-- A concrete detector-result list: one authentic and two suspicious
votes, no errors. -/
def sampleResults : List DetectorResult :=
  [ { test_name := "video_hash_analysis", verdict := "authentic",
      confidence := 4/5, flags := [] },
    { test_name := "re_encoding_detection", verdict := "suspicious",
      confidence := 3/5, flags := ["low_bitrate_detected"] },
    { test_name := "metadata_analysis", verdict := "suspicious",
      confidence := 7/10, flags := ["missing_creation_time"] } ]

/-- C2 (witness): on the concrete list with one authentic and two
suspicious votes, the hypotheses hold and the combiner returns
`"suspicious"` with the mean confidence of the valid results. -/
theorem combine_majority_vote_witness :
    2 * errorCount sampleResults ≤ sampleResults.length ∧
    (combineTestResults sampleResults).overall_verdict = "suspicious" ∧
    (combineTestResults sampleResults).confidence =
      meanConfidence (validResults sampleResults) :=
  ⟨by decide,
    (combine_majority_vote sampleResults (by decide)).1.1 (by decide),
    (combine_majority_vote sampleResults (by decide)).2⟩

/-- C3: if every result's confidence lies in `[0,1]`, then the aggregate
confidence returned by `_combine_test_results` lies in `[0,1]`. -/
theorem combine_confidence_in_unit_interval (l : List DetectorResult)
    (h : ∀ r ∈ l, 0 ≤ r.confidence ∧ r.confidence ≤ 1) :
    0 ≤ (combineTestResults l).confidence ∧
      (combineTestResults l).confidence ≤ 1 := by
  rw [combineTestResults_eq]
  by_cases he : 2 * errorCount l > l.length
  · simp [he]
  · simp only [he, if_neg, if_false]
    have hv : ∀ x ∈ (validResults l).map (fun r => r.confidence), 0 ≤ x ∧ x ≤ 1 := by
      intro x hx
      obtain ⟨r, hr, hrx⟩ := List.mem_map.mp hx
      exact hrx ▸ h r (List.mem_of_mem_filter hr)
    obtain ⟨hs0, hs1⟩ := sum_mem_unit_bounds _ hv
    rw [List.length_map] at hs1
    unfold meanConfidence
    by_cases hl : (validResults l).length > 0
    · have hpos : (0 : ℚ) < (validResults l).length := by exact_mod_cast hl
      constructor
      · simp only [hl, if_pos]
        positivity
      · simp only [hl, if_pos]
        rw [div_le_one hpos]
        exact hs1
    · simp [hl]

/-- C3 (witness): the concrete sample list has all confidences in `[0,1]`
and the combined confidence lies in `[0,1]`. -/
theorem combine_confidence_in_unit_interval_witness :
    (∀ r ∈ sampleResults, 0 ≤ r.confidence ∧ r.confidence ≤ 1) ∧
    0 ≤ (combineTestResults sampleResults).confidence ∧
      (combineTestResults sampleResults).confidence ≤ 1 := by
  have h : ∀ r ∈ sampleResults, 0 ≤ r.confidence ∧ r.confidence ≤ 1 := by
    intro r hr
    simp only [sampleResults, List.mem_cons, List.not_mem_nil, or_false] at hr
    rcases hr with h | h | h <;> subst h <;> norm_num
  exact ⟨h, combine_confidence_in_unit_interval sampleResults h⟩

/-- C4: aggregation is deterministic — `_combine_test_results` is a pure
function of its input list, so identical DetectorResult inputs give
identical outputs (verdict, confidence, flags and test summary alike). -/
theorem combine_deterministic (l₁ l₂ : List DetectorResult) (h : l₁ = l₂) :
    combineTestResults l₁ = combineTestResults l₂ :=
  congrArg combineTestResults h

/-- C4 (witness): determinism applied at the concrete sample list. -/
theorem combine_deterministic_witness :
    combineTestResults sampleResults = combineTestResults sampleResults :=
  combine_deterministic sampleResults sampleResults rfl

/-- The verdict-to-verification-status mapping of `analyze_video_forensics`
(`backend/app/forensics.py`, lines 496-510): the Python dict
`{"authentic": "verified", "suspicious": "flagged", "flagged": "flagged",
"error": "pending"}.get(verdict, "pending")`. -/
def verdictToVerificationStatus (v : String) : String :=
  if v = "authentic" then "verified"
  else if v = "suspicious" then "flagged"
  else if v = "flagged" then "flagged"
  else if v = "error" then "pending"
  else "pending"

/-- C6: the worker maps overall verdict `"error"` — and any verdict not in
the mapping's key set — to verification status `"pending"`, and it
assigns `"verified"` exactly (in particular, only) for the verdict
`"authentic"`; hence a failed analysis never yields `"verified"`. -/
theorem verification_status_of_verdict (v : String) :
    (v = "error" → verdictToVerificationStatus v = "pending") ∧
    (v ∉ ["authentic", "suspicious", "flagged", "error"] →
      verdictToVerificationStatus v = "pending") ∧
    (verdictToVerificationStatus v = "verified" ↔ v = "authentic") := by
  unfold verdictToVerificationStatus
  by_cases h1 : v = "authentic"
  · simp [h1]
  · by_cases h2 : v = "suspicious"
    · simp [h1, h2]
    · by_cases h3 : v = "flagged"
      · simp [h1, h2, h3]
      · by_cases h4 : v = "error"
        · simp [h1, h2, h3, h4]
        · simp [h1, h2, h3, h4]

/-- C6 (witness): the mapping at the concrete verdicts `"error"` and an
unrecognized verdict string yields `"pending"`, and at `"authentic"`
yields `"verified"`. -/
theorem verification_status_of_verdict_witness :
    verdictToVerificationStatus "error" = "pending" ∧
    verdictToVerificationStatus "unexpected_verdict" = "pending" ∧
    verdictToVerificationStatus "authentic" = "verified" :=
  ⟨(verification_status_of_verdict "error").1 rfl,
   (verification_status_of_verdict "unexpected_verdict").2.1 (by decide),
   (verification_status_of_verdict "authentic").2.2.mpr rfl⟩

/-- The container `format` section that `_metadata_analysis` reads:
`tags.creation_time` (absent ⇒ `none`), `float(format.get("duration", 0))`
and `int(format.get("size", 0))`. -/
structure FormatMetadata where
  creation_time : Option String
  duration : ℚ
  size : ℤ
deriving DecidableEq, Repr

/-- Python truthiness of the optional `creation_time` string:
`None` and the empty string are falsy. -/
def truthyTag : Option String → Bool
  | none => false
  | some s => s != ""

/-- `VideoForensicsAnalyzer._metadata_analysis`
(`backend/app/forensics.py`, lines 348-406), after a successful ffprobe:
flags `missing_creation_time` when the `creation_time` tag is falsy, and
`unusual_size_ratio` when duration and size are positive and the
bytes-per-second ratio is below 100000 or above 10000000; verdict is
`"suspicious"` iff any flag was raised, confidence 0.8/0.4. -/
def metadataAnalysis (md : FormatMetadata) : DetectorResult :=
  let flags₀ : List String :=
    if truthyTag md.creation_time then [] else ["missing_creation_time"]
  let flags : List String :=
    if 0 < md.duration ∧ 0 < md.size ∧
        ((md.size : ℚ) / md.duration < 100000 ∨ 10000000 < (md.size : ℚ) / md.duration) then
      flags₀ ++ ["unusual_size_ratio"]
    else flags₀
  { test_name := "metadata_analysis"
    verdict := if flags.isEmpty then "authentic" else "suspicious"
    confidence := if flags.isEmpty then 4/5 else 2/5
    flags := flags }

/-- C7: the metadata detector raises `missing_creation_time` exactly when
the format metadata lacks a (nonempty) `creation_time` tag, raises
`unusual_size_ratio` exactly when duration and file size are positive and
bytes-per-second falls outside `[100000, 10000000]`, and returns verdict
`"suspicious"` iff at least one flag was raised (else `"authentic"`). -/
theorem metadata_analysis_flags (md : FormatMetadata) :
    ("missing_creation_time" ∈ (metadataAnalysis md).flags ↔
      (md.creation_time = none ∨ md.creation_time = some "")) ∧
    ("unusual_size_ratio" ∈ (metadataAnalysis md).flags ↔
      (0 < md.duration ∧ 0 < md.size ∧
        ((md.size : ℚ) / md.duration < 100000 ∨
          10000000 < (md.size : ℚ) / md.duration))) ∧
    ((metadataAnalysis md).verdict = "suspicious" ↔
      (metadataAnalysis md).flags ≠ []) ∧
    ((metadataAnalysis md).verdict = "authentic" ↔
      (metadataAnalysis md).flags = []) := by
  have htags : truthyTag md.creation_time = false ↔
      (md.creation_time = none ∨ md.creation_time = some "") := by
    cases h : md.creation_time with
    | none => simp [truthyTag]
    | some s =>
      simp only [truthyTag, bne_eq_false_iff_eq, Option.some.injEq]
      constructor
      · intro hs; exact Or.inr hs
      · rintro (h' | h')
        · exact absurd h' (by simp)
        · exact h'
  unfold metadataAnalysis
  by_cases hc : truthyTag md.creation_time
  · by_cases hr : 0 < md.duration ∧ 0 < md.size ∧
        ((md.size : ℚ) / md.duration < 100000 ∨ 10000000 < (md.size : ℚ) / md.duration)
    · simp [hc, hr, htags.symm]
    · simp [hc, hr, htags.symm]
  · by_cases hr : 0 < md.duration ∧ 0 < md.size ∧
        ((md.size : ℚ) / md.duration < 100000 ∨ 10000000 < (md.size : ℚ) / md.duration)
    · simp [hc, hr, ← htags]
    · simp [hc, hr, ← htags]

/-- Concrete format metadata with no creation-time tag and an implausibly
low bytes-per-second ratio (duration 10.0 s, size 50000 bytes). -/
def suspiciousMd : FormatMetadata :=
  { creation_time := none, duration := 10, size := 50000 }

/-- C7 (witness): on the concrete metadata lacking a creation-time tag
and with ratio 5000 bytes/s, both flags are raised and the verdict is
`"suspicious"`. -/
theorem metadata_analysis_flags_witness :
    "missing_creation_time" ∈ (metadataAnalysis suspiciousMd).flags ∧
    "unusual_size_ratio" ∈ (metadataAnalysis suspiciousMd).flags ∧
    (metadataAnalysis suspiciousMd).verdict = "suspicious" :=
  ⟨(metadata_analysis_flags suspiciousMd).1.mpr (Or.inl rfl),
   (metadata_analysis_flags suspiciousMd).2.1.mpr
     ⟨by norm_num [suspiciousMd], by norm_num [suspiciousMd],
      Or.inl (by norm_num [suspiciousMd])⟩,
   (metadata_analysis_flags suspiciousMd).2.2.1.mpr
     (List.ne_nil_of_mem
       ((metadata_analysis_flags suspiciousMd).1.mpr (Or.inl rfl)))⟩

/-- Modelled from the spec: `determine_authenticity_verdict` is imported
from `app.forensics` by `tests/services/test_forensics.py` but the module
under `src/` does not define it; §4.5 of the specification fixes its cut
points — `<0.2 authentic`, `[0.2,0.5) likely_authentic`,
`[0.5,0.8) suspicious`, `≥0.8 likely_fraudulent`. -/
def determineAuthenticityVerdict (fraud_score : ℚ) : String :=
  if fraud_score < 1/5 then "authentic"
  else if fraud_score < 1/2 then "likely_authentic"
  else if fraud_score < 4/5 then "suspicious"
  else "likely_fraudulent"

/-- C8: for every fraud score in `[0,1]`, the verdict function maps
`s < 0.2` to `"authentic"`, `0.2 ≤ s < 0.5` to `"likely_authentic"`,
`0.5 ≤ s < 0.8` to `"suspicious"`, and `0.8 ≤ s` to
`"likely_fraudulent"`. -/
theorem authenticity_verdict_cut_points (s : ℚ) (h0 : 0 ≤ s) (h1 : s ≤ 1) :
    (s < 1/5 → determineAuthenticityVerdict s = "authentic") ∧
    (1/5 ≤ s → s < 1/2 → determineAuthenticityVerdict s = "likely_authentic") ∧
    (1/2 ≤ s → s < 4/5 → determineAuthenticityVerdict s = "suspicious") ∧
    (4/5 ≤ s → determineAuthenticityVerdict s = "likely_fraudulent") := by
  unfold determineAuthenticityVerdict
  refine ⟨fun h => ?_, fun hl hu => ?_, fun hl hu => ?_, fun hl => ?_⟩
  · rw [if_pos h]
  · rw [if_neg (by linarith), if_pos hu]
  · rw [if_neg (by linarith), if_neg (by linarith), if_pos hu]
  · rw [if_neg (by linarith), if_neg (by linarith), if_neg (by linarith)]

/-- C8 (witness): the cut points evaluated at the concrete scores the
test suite uses (0.1, 0.3, 0.6, 0.9). -/
theorem authenticity_verdict_cut_points_witness :
    determineAuthenticityVerdict (1/10) = "authentic" ∧
    determineAuthenticityVerdict (3/10) = "likely_authentic" ∧
    determineAuthenticityVerdict (3/5) = "suspicious" ∧
    determineAuthenticityVerdict (9/10) = "likely_fraudulent" :=
  ⟨(authenticity_verdict_cut_points (1/10) (by norm_num) (by norm_num)).1
      (by norm_num),
   (authenticity_verdict_cut_points (3/10) (by norm_num) (by norm_num)).2.1
      (by norm_num) (by norm_num),
   (authenticity_verdict_cut_points (3/5) (by norm_num) (by norm_num)).2.2.1
      (by norm_num) (by norm_num),
   (authenticity_verdict_cut_points (9/10) (by norm_num) (by norm_num)).2.2.2
      (by norm_num)⟩

/-- The mutable fields of a `Submission` row that `update_submission`
touches (`backend/app/models.py`): status, verification status, priority
score, the forensics payload (opaque here), and whether `processed_at`
has been stamped; timestamps themselves are abstracted away. -/
structure SubmissionRow where
  status : String
  verification_status : String
  priority_score : ℚ
  forensics_data : Option (List (String × String))
  processed_at_set : Bool
deriving DecidableEq, Repr

/-- `schemas.SubmissionUpdate`: every field optional; an absent field is
excluded by `dict(exclude_unset=True)` and leaves the row unchanged. -/
structure SubmissionUpdate where
  status : Option String := none
  priority_score : Option ℚ := none
  verification_status : Option String := none
  forensics_data : Option (List (String × String)) := none
deriving DecidableEq, Repr

/-- `crud.update_submission` (`backend/app/crud.py`, lines 142-163): each
set field of the update is written onto the row unconditionally
(`setattr` loop); if the update's status is `"completed"`,
`processed_at` is stamped.  No transition guard of any kind is applied. -/
def update_submission (s : SubmissionRow) (u : SubmissionUpdate) : SubmissionRow :=
  let s₁ := match u.status with
    | some v => { s with status := v }
    | none => s
  let s₂ := match u.priority_score with
    | some v => { s₁ with priority_score := v }
    | none => s₁
  let s₃ := match u.verification_status with
    | some v => { s₂ with verification_status := v }
    | none => s₂
  let s₄ := match u.forensics_data with
    | some v => { s₃ with forensics_data := some v }
    | none => s₃
  if u.status = some "completed" then { s₄ with processed_at_set := true } else s₄

/-- The soft delete performed by the submission-deletion endpoint handler
(`backend/app/api/submissions.py`, lines 143-170): an unconditional
`update_submission` with status `"deleted"`. -/
def delete_submission (s : SubmissionRow) : SubmissionRow :=
  update_submission s { status := some "deleted" }

/-- A concrete completed submission row. -/
def completedRow : SubmissionRow :=
  { status := "completed", verification_status := "verified",
    priority_score := 0, forensics_data := none, processed_at_set := true }

/-- C5 (counterexample): a submission whose status is `"completed"` is
observed in `"pending"` after a single `update_submission` carrying
status `"pending"` — the code enforces no forward-only invariant. -/
theorem status_regression_possible :
    completedRow.status = "completed" ∧
    (update_submission completedRow { status := some "pending" }).status =
      "pending" := by
  constructor <;> rfl

/-- C5 (amended): `update_submission` applies whatever status the update
carries — afterwards the row's status equals the update's status when one
is set and is unchanged otherwise — and `delete_submission` sets status
`"deleted"` from any state; no backward-transition guard exists, so
status regressions (e.g. completed to pending) are possible. -/
theorem update_submission_status_unguarded (s : SubmissionRow)
    (u : SubmissionUpdate) :
    (update_submission s u).status = u.status.getD s.status ∧
    (delete_submission s).status = "deleted" := by
  constructor
  · unfold update_submission
    rcases u with ⟨st, ps, vs, fd⟩
    cases st <;> cases ps <;> cases vs <;> cases fd <;>
      simp only [Option.getD] <;> split <;> rfl
  · rfl

/-- Outcome of one forensic test inside `analyze_video`'s loop: the
detector either returns a result dict or raises (the loop's `except`
converts a raise into an error result and continues). -/
inductive TestOutcome where
  | ok (r : DetectorResult)
  | raised
deriving DecidableEq, Repr

/-- The result dict the loop's `except` branch appends for a raised
test. -/
def outcomeResult : TestOutcome → DetectorResult
  | .ok r => r
  | .raised => { test_name := "error", verdict := "error", confidence := 0, flags := [] }

/-- The events of one execution of `VideoForensicsAnalyzer.analyze_video`
(`backend/app/forensics.py`, lines 46-103): whether the download
succeeds, what each forensic test does, and whether an exception escapes
to the outer `except` after the per-test loop (i.e. out of
`_combine_test_results` / the dict update). -/
structure AnalyzeEnv where
  downloadOk : Bool
  outcomes : List TestOutcome
  combineRaises : Bool
deriving DecidableEq, Repr

/-- Observable outcome of `analyze_video`: the overall verdict, whether a
scratch copy was downloaded, and whether `_cleanup_temp_file` was
reached. -/
structure AnalyzeOutcome where
  overall_verdict : String
  downloaded : Bool
  cleanedUp : Bool
deriving DecidableEq, Repr

/-- Control flow of `analyze_video`: a failed download returns early with
verdict `"error"` (nothing downloaded); per-test raises are caught and
become error results; an exception escaping after the loop is caught by
the outer `except`, which sets verdict `"error"` and returns WITHOUT
reaching the `_cleanup_temp_file` call (there is no `finally`); only the
fall-through path cleans up. -/
def analyze_video (env : AnalyzeEnv) : AnalyzeOutcome :=
  if env.downloadOk = false then
    { overall_verdict := "error", downloaded := false, cleanedUp := false }
  else if env.combineRaises then
    { overall_verdict := "error", downloaded := true, cleanedUp := false }
  else
    { overall_verdict :=
        (combineTestResults (env.outcomes.map outcomeResult)).overall_verdict
      downloaded := true
      cleanedUp := true }

/-- A concrete execution in which the download succeeds and an exception
escapes to the outer handler after the test loop. -/
def leakEnv : AnalyzeEnv :=
  { downloadOk := true, outcomes := [], combineRaises := true }

/-- C9 (counterexample): an execution whose download succeeded but in
which an exception escapes the per-test handlers terminates WITHOUT the
scratch copy being removed: `analyze_video` has no `finally`, and its
outer `except` does not call `_cleanup_temp_file`. -/
theorem cleanup_missed_on_outer_exception :
    leakEnv.downloadOk = true ∧
    (analyze_video leakEnv).downloaded = true ∧
    (analyze_video leakEnv).cleanedUp = false := by
  refine ⟨rfl, rfl, rfl⟩

/-- C9 (amended): when the download succeeds and no exception escapes the
per-test handlers to the outer `except` (detector failures are caught
inside the loop and still fall through), the scratch copy is removed; an
exception reaching the outer handler after download leaves it present. -/
theorem cleanup_on_fallthrough (env : AnalyzeEnv)
    (hd : env.downloadOk = true) (hc : env.combineRaises = false) :
    (analyze_video env).downloaded = true ∧
      (analyze_video env).cleanedUp = true := by
  unfold analyze_video
  rw [hd, hc]
  exact ⟨rfl, rfl⟩

/-- A concrete run in which one detector raises and the raise is caught
by the per-test handler. -/
def detectorFailEnv : AnalyzeEnv :=
  { downloadOk := true, outcomes := [TestOutcome.raised], combineRaises := false }

/-- C9 (witness for the amended claim): a run in which one detector
raises (caught per-test) still reaches cleanup. -/
theorem cleanup_on_fallthrough_witness :
    (analyze_video detectorFailEnv).downloaded = true ∧
    (analyze_video detectorFailEnv).cleanedUp = true :=
  cleanup_on_fallthrough detectorFailEnv rfl rfl

end CampusPulse
